import Mathlib

/-!
Shallow embedding of the quota-reset detection and scheduled-trigger
subsystem ("wakeup" engine) of the antigravity-usage CLI.

Conventions of the embedding:
* TypeScript numbers carrying percentages or millisecond durations are
  modelled as rationals; epoch timestamps are modelled as integers
  (an ISO timestamp string is identified with its epoch-millisecond value,
  so toISOString and Date.getTime are both the identity).
* Optional fields become Option values; JSON maps become functions into
  Option; thrown exceptions become Except values.
* Disk state (trigger history, reset state) is passed explicitly; functions
  that in the source load, mutate and save a document take the document as
  an argument and return the updated document.
* External collaborators (account manager, token manager, Cloud Code
  client, the network) are supplied as explicit environment records whose
  fields describe the outcome of each call.
-/

/-! ## Data model (src/wakeup/types.ts) -/

inductive AccountStatus
  | valid
  | expired
  | invalid
deriving Repr, DecidableEq

inductive TriggerType
  | manual
  | auto
deriving Repr, DecidableEq

inductive TriggerSource
  | manual
  | scheduled
  | quota_reset
deriving Repr, DecidableEq

structure TokenUsage where
  prompt : Nat
  completion : Nat
  total : Nat
deriving Repr, DecidableEq

structure TriggerRecord where
  timestamp : Int
  success : Bool
  triggerType : TriggerType
  triggerSource : TriggerSource
  models : List String
  accountEmail : String
  durationMs : Nat
  prompt : String
  response : Option String := none
  error : Option String := none
  tokensUsed : Option TokenUsage := none
deriving Repr, DecidableEq

structure ModelResetState where
  lastResetAt : Int
  lastTriggeredTime : Int
deriving Repr, DecidableEq

/-- Reset deduplication state: a JSON object keyed by model reset key. -/
def ResetState : Type := String → Option ModelResetState

/-- Model mapping document: raw model ID to canonical constant. -/
def ModelMapping : Type := String → Option String

inductive ScheduleMode
  | interval
  | daily
  | weekly
  | custom
deriving Repr, DecidableEq

structure WakeupConfig where
  enabled : Bool
  selectedModels : List String
  selectedAccounts : Option (List String) := none
  customPrompt : Option String := none
  maxOutputTokens : Nat
  scheduleMode : ScheduleMode
  intervalHours : Option Nat := none
  dailyTimes : Option (List String) := none
  cronExpression : Option String := none
  wakeOnReset : Bool
  resetCooldownMinutes : Nat
deriving Repr, DecidableEq

structure TriggerOptions where
  models : List String
  accountEmail : String
  triggerType : TriggerType
  triggerSource : TriggerSource
  customPrompt : Option String := none
  maxOutputTokens : Option Nat := none
deriving Repr, DecidableEq

structure ModelTriggerResult where
  modelId : String
  success : Bool
  durationMs : Nat
  response : Option String := none
  error : Option String := none
  tokensUsed : Option TokenUsage := none
deriving Repr, DecidableEq

structure TriggerResult where
  success : Bool
  results : List ModelTriggerResult
deriving Repr, DecidableEq

structure DetectionResult where
  triggered : Bool
  triggeredModels : List String
deriving Repr, DecidableEq

/-- A model entry of a quota snapshot (src/quota/types.ts ModelQuotaInfo). -/
structure ModelQuotaInfo where
  modelId : String
  label : String := ""
  remainingPercentage : Option ℚ := none
  isExhausted : Bool := false
  resetTime : Option Int := none
  timeUntilResetMs : Option ℚ := none
deriving Repr, DecidableEq

structure QuotaSnapshot where
  timestamp : Int
  models : List ModelQuotaInfo
deriving Repr, DecidableEq

/-! ## Storage service (src/wakeup/storage.ts)

A persisted JSON document is either absent, present but unparseable, or
present with a parsed value.  readJsonFile mirrors the source exactly: a
parse failure is caught, logged and replaced by the default value, so the
reader never raises; writeJsonFile rethrows a failed disk write. -/

inductive StoredDoc (α : Type)
  | missing
  | corrupt
  | parsed (value : α)

def readJsonFile {α : Type} (doc : StoredDoc α) (defaultValue : α) : Except String α :=
  match doc with
  | StoredDoc.missing => Except.ok defaultValue
  | StoredDoc.corrupt => Except.ok defaultValue
  | StoredDoc.parsed v => Except.ok v

def writeJsonFile {α : Type} (writeSucceeds : Bool) (data : α) : Except String Unit :=
  if writeSucceeds then Except.ok () else Except.error "Error writing file"

def loadWakeupConfig (doc : StoredDoc WakeupConfig) : Except String (Option WakeupConfig) :=
  match doc with
  | StoredDoc.missing => Except.ok none
  | StoredDoc.corrupt => Except.ok none
  | StoredDoc.parsed v => Except.ok (some v)

def loadTriggerHistory (doc : StoredDoc (List TriggerRecord)) : Except String (List TriggerRecord) :=
  readJsonFile doc []

def emptyResetState : ResetState := fun _ => none

def emptyModelMapping : ModelMapping := fun _ => none

def loadResetState (doc : StoredDoc ResetState) : Except String ResetState :=
  readJsonFile doc emptyResetState

def loadModelMapping (doc : StoredDoc ModelMapping) : Except String ModelMapping :=
  readJsonFile doc emptyModelMapping

/-- Ring buffer size for trigger history. -/
def MAX_HISTORY_ENTRIES : Nat := 100

/-- addTriggerRecord: unshift the record, then trim to MAX_HISTORY_ENTRIES. -/
def addTriggerRecord (record : TriggerRecord) (history : List TriggerRecord) :
    List TriggerRecord :=
  let history2 := record :: history
  if MAX_HISTORY_ENTRIES < history2.length then history2.take MAX_HISTORY_ENTRIES
  else history2

def getRecentHistory (history : List TriggerRecord) (limit : Nat) : List TriggerRecord :=
  history.take limit

def getLastTrigger (history : List TriggerRecord) : Option TriggerRecord :=
  history.head?

/-- updateResetState: write a fresh entry for modelKey, keep the rest.
now is the epoch value of the ISO timestamp taken inside the function. -/
def updateResetState (modelKey : String) (resetAt : Int) (now : Int)
    (state : ResetState) : ResetState :=
  fun k => if k = modelKey then some { lastResetAt := resetAt, lastTriggeredTime := now } else state k

def getModelResetState (state : ResetState) (modelKey : String) : Option ModelResetState :=
  state modelKey

/-- getModelConstant: look the model ID up in the mapping document. -/
def getModelConstant (mapping : ModelMapping) (modelId : String) : Option String :=
  mapping modelId

/-- getResetKey: the model constant if available, else the raw model ID. -/
def getResetKey (mapping : ModelMapping) (modelId : String) : String :=
  (getModelConstant mapping modelId).getD modelId

/-! ## Account resolver (src/wakeup/account-resolver.ts) -/

structure AccountManager where
  emails : List String
  status : String → AccountStatus
  activeEmail : Option String

def AccountManager.hasAccount (m : AccountManager) (email : String) : Bool :=
  m.emails.contains email

/-- Fallback scan: first directory account with status valid or expired. -/
def firstUsableAccount (emails : List String) (status : String → AccountStatus) :
    List String :=
  match emails with
  | [] => []
  | email :: rest =>
    if status email = AccountStatus.valid ∨ status email = AccountStatus.expired then [email]
    else firstUsableAccount rest status

def resolveAccounts (m : AccountManager) (selectedAccounts : Option (List String)) :
    List String :=
  match selectedAccounts with
  | some selected =>
    selected.filter (fun email =>
      if ¬ (m.hasAccount email = true) then false
      else if m.status email = AccountStatus.invalid then false
      else true)
  | none =>
    match m.activeEmail with
    | some active =>
      if m.status active = AccountStatus.valid ∨ m.status active = AccountStatus.expired then
        [active]
      else firstUsableAccount m.emails m.status
    | none => firstUsableAccount m.emails m.status

/-! ## Unused-model detector (src/wakeup/reset-detector.ts) -/

def FULL_QUOTA_THRESHOLD : ℚ := 99

def RESET_TIME_MIN_HOURS : ℚ := 4.5

def RESET_TIME_MAX_HOURS : ℚ := 5.5

/-- RESET_TIME_MIN_HOURS * 60 * 60 * 1000, written as its value so that the
constant reduces in the kernel; theorem RESET_TIME_MIN_MS_eq ties it to the
product from the source. -/
def RESET_TIME_MIN_MS : ℚ := 16200000

/-- RESET_TIME_MAX_HOURS * 60 * 60 * 1000, written as its value; theorem
RESET_TIME_MAX_MS_eq ties it to the product from the source. -/
def RESET_TIME_MAX_MS : ℚ := 19800000

def DEFAULT_COOLDOWN_MS : Int := 60 * 60 * 1000

def isModelUnused (model : ModelQuotaInfo) : Bool :=
  match model.remainingPercentage with
  | none => false
  | some p =>
    if p < FULL_QUOTA_THRESHOLD then false
    else
      match model.timeUntilResetMs with
      | none => false
      | some t =>
        if t < RESET_TIME_MIN_MS ∨ t > RESET_TIME_MAX_MS then false
        else true

def findUnusedModels (snapshot : QuotaSnapshot) : List ModelQuotaInfo :=
  snapshot.models.filter isModelUnused

def hasUnusedModels (snapshot : QuotaSnapshot) : Bool :=
  snapshot.models.any isModelUnused

/-! ## Trigger service (src/wakeup/trigger-service.ts)

The collaborators reached from executeTrigger (token manager, Cloud Code
client, clock) are bundled into a TriggerEnv describing the outcome of each
external call for the account at hand.  Besides the TriggerResult, the
embedding returns the history records appended by recordResults and a trace
of the external calls that were issued, so that claims about "no credential
access" or "no generation request" are statable. -/

def DEFAULT_PROMPT : String := "hi"

def REQUEST_TIMEOUT_MS : Nat := 30000

def MAX_CONCURRENT_REQUESTS : Nat := 4

structure GenResponse where
  text : String
  tokensUsed : Option TokenUsage := none
deriving Repr, DecidableEq

/-- Shape of the value thrown by getValidAccessToken on refresh failure:
either a TokenRefreshError exposing getDetailedMessage, a plain Error, or
some other thrown value. -/
inductive RefreshFailure
  | tokenRefreshError (detailedMessage : String)
  | plainError (message : String)
  | other
deriving Repr, DecidableEq

inductive TriggerEvent
  | getTokenManager (email : String)
  | refreshTokens (email : String)
  | resolveProject
  | generate (modelId : String)
deriving Repr, DecidableEq

structure TriggerEnv where
  /-- getTokenManagerForAccount: fails when the account or its credential
  store is unavailable. -/
  getTokenManagerForAccount : String → Except String Unit
  /-- tokenManager.getValidAccessToken: forces a refresh check. -/
  getValidAccessToken : Except RefreshFailure Unit
  /-- client.resolveProjectId: may fail, may yield no project. -/
  resolveProjectIdOutcome : Except String (Option String)
  /-- client.generateContent for a model (a timeout surfaces as the error
  message "Request timed out"). -/
  generateContent : String → Except String GenResponse
  /-- observed elapsed milliseconds for a model request -/
  durationOf : String → Nat
  /-- epoch value of new Date().toISOString() when recording results -/
  nowTs : Int

/-- Error message selected when the refresh check throws: prefer the
structured detail, then the Error message, then the generic fallback. -/
def refreshErrorMessage (accountEmail : String) : RefreshFailure → String
  | RefreshFailure.tokenRefreshError msg => msg
  | RefreshFailure.plainError msg => "Token refresh failed: " ++ msg
  | RefreshFailure.other => "Authentication failed for " ++ accountEmail

def triggerSingleModel (env : TriggerEnv) (modelId : String) (prompt : String)
    (maxTokens : Option Nat) : ModelTriggerResult :=
  match env.generateContent modelId with
  | Except.ok response =>
    { modelId := modelId
      success := true
      durationMs := env.durationOf modelId
      response := some (String.mk (response.text.toList.take 500))
      tokensUsed := response.tokensUsed }
  | Except.error errorMessage =>
    { modelId := modelId
      success := false
      durationMs := env.durationOf modelId
      error := some errorMessage }

/-- recordResults: one TriggerRecord per model result. -/
def recordResults (nowTs : Int) (results : List ModelTriggerResult)
    (options : TriggerOptions) : List TriggerRecord :=
  results.map fun result =>
    { timestamp := nowTs
      success := result.success
      triggerType := options.triggerType
      triggerSource := options.triggerSource
      models := [result.modelId]
      accountEmail := options.accountEmail
      durationMs := result.durationMs
      prompt := options.customPrompt.getD DEFAULT_PROMPT
      response := result.response
      error := result.error
      tokensUsed := result.tokensUsed }

/-- Partition the model list into batches of at most MAX_CONCURRENT_REQUESTS,
mirroring the slice loop of the source.  The fuel argument is initialised
with the list length, which bounds the number of batches, so the recursion
is structural and the fuel never runs out. -/
def batchModelsAux : Nat → List String → List (List String)
  | _, [] => []
  | 0, _ :: _ => []
  | fuel + 1, m :: rest => (m :: rest.take 3) :: batchModelsAux fuel (rest.drop 3)

def batchModels (models : List String) : List (List String) :=
  batchModelsAux models.length models

def executeTrigger (env : TriggerEnv) (options : TriggerOptions) :
    TriggerResult × List TriggerRecord × List TriggerEvent :=
  match options.models with
  | [] => ({ success := true, results := [] }, [], [])
  | _ :: _ =>
    match env.getTokenManagerForAccount options.accountEmail with
    | Except.error _ =>
      let results := options.models.map fun modelId =>
        { modelId := modelId
          success := false
          durationMs := 0
          error := some ("Failed to get credentials for " ++ options.accountEmail)
          : ModelTriggerResult }
      ({ success := false, results := results },
       recordResults env.nowTs results options,
       [TriggerEvent.getTokenManager options.accountEmail])
    | Except.ok _ =>
      match env.getValidAccessToken with
      | Except.error err =>
        let errorMessage := refreshErrorMessage options.accountEmail err
        let results := options.models.map fun modelId =>
          { modelId := modelId
            success := false
            durationMs := 0
            error := some errorMessage
            : ModelTriggerResult }
        ({ success := false, results := results },
         recordResults env.nowTs results options,
         [TriggerEvent.getTokenManager options.accountEmail,
          TriggerEvent.refreshTokens options.accountEmail])
      | Except.ok _ =>
        let userPrompt := options.customPrompt.getD DEFAULT_PROMPT
        let results :=
          (batchModels options.models).flatMap fun batch =>
            batch.map fun modelId =>
              triggerSingleModel env modelId userPrompt options.maxOutputTokens
        ({ success := results.all (fun r => r.success), results := results },
         recordResults env.nowTs results options,
         [TriggerEvent.getTokenManager options.accountEmail,
          TriggerEvent.refreshTokens options.accountEmail,
          TriggerEvent.resolveProject] ++
           options.models.map TriggerEvent.generate)

def testTrigger (env : TriggerEnv) (modelId : String) (accountEmail : String)
    (prompt : Option String) : ModelTriggerResult :=
  let result := (executeTrigger env
    { models := [modelId]
      accountEmail := accountEmail
      triggerType := TriggerType.manual
      triggerSource := TriggerSource.manual
      customPrompt := prompt }).1
  (result.results.head?).getD
    { modelId := modelId
      success := false
      durationMs := 0
      error := some "No result returned" }

/-! ## Reset-detection orchestrator (src/wakeup/reset-detector.ts) -/

def getAllValidAccounts (emails : List String) (status : String → AccountStatus) :
    List String :=
  emails.filter fun email =>
    decide (status email = AccountStatus.valid) || decide (status email = AccountStatus.expired)

/-- The inline cooldown check of the scan loop: a previous entry exists for
the key and its remaining cooldown is still positive. -/
def cooldownActive (loaded : ResetState) (now : Int) (key : String) : Bool :=
  match loaded key with
  | some previousState =>
    decide (DEFAULT_COOLDOWN_MS - (now - previousState.lastTriggeredTime) > 0)
  | none => false

/-- The per-model scan of detectResetAndTrigger.  The cooldown lookup always
uses the reset state loaded once at the start of the cycle, while each
updateResetState call rewrites the stored document; both the collected
model IDs (in snapshot order) and the final stored document are returned.
Note the lookup and update key is the raw model.modelId. -/
def scanModels (loaded : ResetState) (now : Int) :
    List ModelQuotaInfo → ResetState → List String × ResetState
  | [], stored => ([], stored)
  | model :: rest, stored =>
    if isModelUnused model = false then scanModels loaded now rest stored
    else if cooldownActive loaded now model.modelId then scanModels loaded now rest stored
    else
      let stored2 :=
        updateResetState model.modelId (model.resetTime.getD now) now stored
      let tail := scanModels loaded now rest stored2
      (model.modelId :: tail.1, tail.2)

structure AccountTriggerOutcome where
  email : String
  result : TriggerResult
  records : List TriggerRecord
  events : List TriggerEvent
deriving Repr, DecidableEq

structure DetectEnv where
  /-- loadWakeupConfig() result -/
  config : Option WakeupConfig
  /-- accountManager.getAccountEmails() -/
  accountEmails : List String
  /-- accountManager.getAccountStatus -/
  accountStatus : String → AccountStatus
  /-- loadResetState() result -/
  resetState : ResetState
  /-- Date.now() at the start of the cycle -/
  now : Int
  /-- external collaborators for each account -/
  triggerEnvOf : String → TriggerEnv

structure DetectOutcome where
  detection : DetectionResult
  finalResetState : ResetState
  perAccount : List AccountTriggerOutcome

/-- The not-triggered outcome of detectResetAndTrigger (disabled config,
no eligible account, no unused model). -/
def noDetect (finalResetState : ResetState) : DetectOutcome :=
  { detection := { triggered := false, triggeredModels := [] }
    finalResetState := finalResetState
    perAccount := [] }

def detectResetAndTrigger (env : DetectEnv) (snapshot : QuotaSnapshot) : DetectOutcome :=
  match env.config with
  | none => noDetect env.resetState
  | some config =>
    if config.enabled = false then noDetect env.resetState
    else
      match getAllValidAccounts env.accountEmails env.accountStatus with
      | [] => noDetect env.resetState
      | account :: moreAccounts =>
        match scanModels env.resetState env.now snapshot.models env.resetState with
        | (modelsToTrigger, finalState) =>
          match modelsToTrigger with
          | [] => noDetect finalState
          | _ :: _ =>
            let perAccount := (account :: moreAccounts).map fun accountEmail =>
              let triggered := executeTrigger (env.triggerEnvOf accountEmail)
                { models := modelsToTrigger
                  accountEmail := accountEmail
                  triggerType := TriggerType.auto
                  triggerSource := TriggerSource.quota_reset
                  customPrompt := config.customPrompt
                  maxOutputTokens := some config.maxOutputTokens }
              { email := accountEmail
                result := triggered.1
                records := triggered.2.1
                events := triggered.2.2 : AccountTriggerOutcome }
            { detection := { triggered := true, triggeredModels := modelsToTrigger }
              finalResetState := finalState
              perAccount := perAccount }

/-! ## Cloud Code onboarding during login (src/google/oauth.ts)

pickOnboardTier, tryOnboardUser and resolveProjectId of the OAuth module.
Network responses are supplied by oracles; the onboarding loop returns the
trace of endpoint calls and sleeps it performed. -/

def CLOUDCODE_onboardAttempts : Nat := 5

def CLOUDCODE_onboardDelayMs : Nat := 2000

/-- The cloudaicompanionProject field of a response: absent, a string, or
an object with an optional id. -/
inductive ProjectField
  | missing
  | str (s : String)
  | obj (id : Option String)
deriving Repr, DecidableEq

/-- extractProjectId: a non-empty string, or a non-empty id of an object. -/
def extractProjectId : ProjectField → Option String
  | ProjectField.missing => none
  | ProjectField.str s => if s.length > 0 then some s else none
  | ProjectField.obj idField =>
    match idField with
    | some id => if id.length > 0 then some id else none
    | none => none

structure Tier where
  id : Option String := none
  isDefault : Option Bool := none
deriving Repr, DecidableEq

/-- Truthiness of t.id && t.id.length > 0. -/
def tierHasId (t : Tier) : Bool :=
  match t.id with
  | some s => s.length > 0
  | none => false

/-- pickOnboardTier: with no allowed tiers fall back to the tier from the
load response; otherwise prefer the first default-flagged tier with a
non-empty id, then the first tier with a non-empty id, then LEGACY.
(The two find guards already require a non-empty id, so returning the found
tier id directly matches the source.) -/
def pickOnboardTier (allowedTiers : Option (List Tier)) (tierIdFromLoad : Option String) :
    Option String :=
  match allowedTiers with
  | none => tierIdFromLoad
  | some tiers =>
    if tiers.length = 0 then tierIdFromLoad
    else
      match tiers.find? (fun t => (t.isDefault == some true) && tierHasId t) with
      | some defaultTier => defaultTier.id
      | none =>
        match tiers.find? tierHasId with
        | some firstTier => firstTier.id
        | none => some "LEGACY"

/-- Outcome of one call to the onboardUser endpoint. -/
inductive OnboardCallOutcome
  | httpError (status : Nat)
  | threw
  | ok (done : Bool) (project : ProjectField)
deriving Repr, DecidableEq

inductive OnboardEvent
  | call (attempt : Nat)
  | sleep (ms : Nat)
deriving Repr, DecidableEq

/-- One iteration structure of the tryOnboardUser retry loop: fuel is the
number of attempts still allowed; attempt is the 1-based attempt number.
Mirrors the source: 401/403 stops retrying, done=true returns the extracted
project id (possibly none), anything else falls through to the next attempt
after a sleep (no sleep after the final attempt). -/
def tryOnboardAux (oracle : Nat → OnboardCallOutcome) :
    Nat → Nat → Option String × List OnboardEvent
  | 0, _ => (none, [])
  | fuel + 1, attempt =>
    let proceed : Option String × List OnboardEvent :=
      if fuel = 0 then (none, [OnboardEvent.call attempt])
      else
        let next := tryOnboardAux oracle fuel (attempt + 1)
        (next.1, OnboardEvent.call attempt :: OnboardEvent.sleep CLOUDCODE_onboardDelayMs :: next.2)
    match oracle attempt with
    | OnboardCallOutcome.httpError status =>
      if status = 401 ∨ status = 403 then (none, [OnboardEvent.call attempt])
      else proceed
    | OnboardCallOutcome.threw => proceed
    | OnboardCallOutcome.ok done project =>
      if done = true then (extractProjectId project, [OnboardEvent.call attempt])
      else proceed

def tryOnboardUser (oracle : Nat → OnboardCallOutcome) :
    Option String × List OnboardEvent :=
  tryOnboardAux oracle CLOUDCODE_onboardAttempts 1

def countOnboardCalls (trace : List OnboardEvent) : Nat :=
  (trace.filter fun ev =>
    match ev with
    | OnboardEvent.call _ => true
    | OnboardEvent.sleep _ => false).length

structure LoadCodeAssistResponse where
  cloudaicompanionProject : ProjectField := ProjectField.missing
  paidTier : Option Tier := none
  currentTier : Option Tier := none
  allowedTiers : Option (List Tier) := none
deriving Repr, DecidableEq

inductive LoadCallOutcome
  | httpError (status : Nat)
  | threw
  | ok (response : LoadCodeAssistResponse)
deriving Repr, DecidableEq

structure ProjectIdResult where
  projectId : Option String := none
  tierId : Option String := none
deriving Repr, DecidableEq

/-- JavaScript a || b over optional strings: an empty string is falsy. -/
def jsOrString (a b : Option String) : Option String :=
  match a with
  | some s => if s.length > 0 then some s else b
  | none => b

/-- resolveProjectId of the OAuth module: call loadCodeAssist; on a
project id return it at once; otherwise pick a tier and run the onboarding
retry loop.  Any failure of the load call resolves to no project. -/
def resolveProjectId (load : LoadCallOutcome)
    (onboardOracle : Nat → OnboardCallOutcome) :
    ProjectIdResult × List OnboardEvent :=
  match load with
  | LoadCallOutcome.httpError _ => ({ projectId := none, tierId := none }, [])
  | LoadCallOutcome.threw => ({ projectId := none, tierId := none }, [])
  | LoadCallOutcome.ok data =>
    let projectId := extractProjectId data.cloudaicompanionProject
    let tierId := jsOrString (data.paidTier.bind Tier.id) (data.currentTier.bind Tier.id)
    match projectId with
    | some pid => ({ projectId := some pid, tierId := tierId }, [])
    | none =>
      match pickOnboardTier data.allowedTiers tierId with
      | none => ({ projectId := none, tierId := tierId }, [])
      | some onboardTier =>
        if onboardTier.length = 0 then ({ projectId := none, tierId := tierId }, [])
        else
          let onboarded := tryOnboardUser onboardOracle
          ({ projectId := onboarded.1, tierId := some onboardTier }, onboarded.2)

/-! ## Iteration helper and concrete scenario data used by the claims -/

/-- Append a list of records one by one through addTriggerRecord, oldest
first (each call models one load-modify-save round trip on the history
document). -/
def appendTriggerRecords (records : List TriggerRecord) (history : List TriggerRecord) :
    List TriggerRecord :=
  records.foldl (fun h r => addTriggerRecord r h) history

def sampleTriggerRecord (i : Nat) : TriggerRecord :=
  { timestamp := (i : Int)
    success := true
    triggerType := TriggerType.auto
    triggerSource := TriggerSource.scheduled
    models := ["claude-sonnet-4-5"]
    accountEmail := "a@x.com"
    durationMs := 0
    prompt := "hi" }

def sampleHistoryInput : List TriggerRecord :=
  (List.range 105).map sampleTriggerRecord

/-- A trigger environment whose external calls all succeed. -/
def okTriggerEnv : TriggerEnv :=
  { getTokenManagerForAccount := fun _ => Except.ok ()
    getValidAccessToken := Except.ok ()
    resolveProjectIdOutcome := Except.ok none
    generateContent := fun _ => Except.ok { text := "ok" }
    durationOf := fun _ => 0
    nowTs := 0 }

def enabledConfig : WakeupConfig :=
  { enabled := true
    selectedModels := ["claude-sonnet-4-5", "gemini-3-flash"]
    maxOutputTokens := 1
    scheduleMode := ScheduleMode.interval
    wakeOnReset := true
    resetCooldownMinutes := 10 }

/-- Scenario for the dedup-key claims: mapping document that maps the raw
model ID of a Gemini model to its pool constant. -/
def c2Mapping : ModelMapping :=
  fun modelId =>
    if modelId = "gemini-2.0-flash-exp" then some "GEMINI_FLASH_CONSTANT" else none

def c2Now : Int := 1700000000000

/-- Prior reset state holding an entry under the canonical pool constant,
last triggered ten minutes before c2Now. -/
def c2PriorState : ResetState :=
  fun k =>
    if k = "GEMINI_FLASH_CONSTANT" then
      some { lastResetAt := 0, lastTriggeredTime := c2Now - 600000 }
    else none

def c2Model : ModelQuotaInfo :=
  { modelId := "gemini-2.0-flash-exp"
    remainingPercentage := some 100
    resetTime := some 1700018000000
    timeUntilResetMs := some 18000000 }

def c2Env : DetectEnv :=
  { config := some enabledConfig
    accountEmails := ["a@x.com"]
    accountStatus := fun _ => AccountStatus.valid
    resetState := c2PriorState
    now := c2Now
    triggerEnvOf := fun _ => okTriggerEnv }

def c2Snapshot : QuotaSnapshot :=
  { timestamp := c2Now, models := [c2Model] }

/-- Scenario for the cooldown claim: mapping for a Claude model. -/
def c3Mapping : ModelMapping :=
  fun modelId =>
    if modelId = "claude-sonnet-4-5" then some "CLAUDE_POOL" else none

def c3Now : Int := 1700000000000

def c3PriorState : ResetState :=
  fun k =>
    if k = "CLAUDE_POOL" then
      some { lastResetAt := 0, lastTriggeredTime := c3Now - 600000 }
    else none

def c3Model : ModelQuotaInfo :=
  { modelId := "claude-sonnet-4-5"
    remainingPercentage := some 100
    timeUntilResetMs := some 18000000 }

def c3Env : DetectEnv :=
  { config := some enabledConfig
    accountEmails := ["a@x.com"]
    accountStatus := fun _ => AccountStatus.valid
    resetState := c3PriorState
    now := c3Now
    triggerEnvOf := fun _ => okTriggerEnv }

def c3Snapshot : QuotaSnapshot :=
  { timestamp := c3Now, models := [c3Model] }

/-- Reset state keyed directly by a raw model ID, ten minutes after its
last trigger (for the amended cooldown claim). -/
def c3RawKeyState : ResetState :=
  fun k =>
    if k = "m-w" then some { lastResetAt := 0, lastTriggeredTime := c3Now - 600000 }
    else none

def c3RawKeyModel : ModelQuotaInfo :=
  { modelId := "m-w"
    remainingPercentage := some 100
    timeUntilResetMs := some 18000000 }

def c3RawKeyEnv : DetectEnv :=
  { config := some enabledConfig
    accountEmails := ["a@x.com"]
    accountStatus := fun _ => AccountStatus.valid
    resetState := c3RawKeyState
    now := c3Now
    triggerEnvOf := fun _ => okTriggerEnv }

def c3RawKeySnapshot : QuotaSnapshot :=
  { timestamp := c3Now, models := [c3RawKeyModel] }

/-- Scenario for the refresh-failure claim: credential refresh throws a
TokenRefreshError whose detailed message names the revoked token. -/
def c5Now : Int := 1700000000000

def c5RefreshFailEnv : TriggerEnv :=
  { getTokenManagerForAccount := fun _ => Except.ok ()
    getValidAccessToken :=
      Except.error (RefreshFailure.tokenRefreshError "Refresh token has been revoked")
    resolveProjectIdOutcome := Except.ok none
    generateContent := fun _ => Except.error "unreachable"
    durationOf := fun _ => 0
    nowTs := c5Now }

def c5Env : DetectEnv :=
  { config := some enabledConfig
    accountEmails := ["a@x.com"]
    accountStatus := fun _ => AccountStatus.valid
    resetState := emptyResetState
    now := c5Now
    triggerEnvOf := fun _ => c5RefreshFailEnv }

def c5Snapshot : QuotaSnapshot :=
  { timestamp := c5Now
    models := [{ modelId := "M1"
                 remainingPercentage := some 100
                 timeUntilResetMs := some 18000000 }] }

/-- Load response with no project, a paid tier, and one non-default allowed
tier (for the tier-priority claim). -/
def c6LoadResponse : LoadCodeAssistResponse :=
  { cloudaicompanionProject := ProjectField.missing
    paidTier := some { id := some "paid-tier" }
    allowedTiers := some [{ id := some "free-tier", isDefault := some false }] }

def c6Oracle : Nat → OnboardCallOutcome :=
  fun _ => OnboardCallOutcome.ok true (ProjectField.str "proj-1")

/-! ## Theorems -/

/-- Fidelity of the window lower bound: 16200000 ms is exactly
RESET_TIME_MIN_HOURS * 60 * 60 * 1000. -/
theorem RESET_TIME_MIN_MS_eq :
    RESET_TIME_MIN_MS = RESET_TIME_MIN_HOURS * 60 * 60 * 1000 := by
  norm_num [RESET_TIME_MIN_MS, RESET_TIME_MIN_HOURS]

/-- Fidelity of the window upper bound: 19800000 ms is exactly
RESET_TIME_MAX_HOURS * 60 * 60 * 1000. -/
theorem RESET_TIME_MAX_MS_eq :
    RESET_TIME_MAX_MS = RESET_TIME_MAX_HOURS * 60 * 60 * 1000 := by
  norm_num [RESET_TIME_MAX_MS, RESET_TIME_MAX_HOURS]

/-- Claim C1: isModelUnused is true exactly when remainingPercentage is
present and at least 99 and timeUntilResetMs is present and lies in the
closed interval from 16200000 ms (4.5 hours) to 19800000 ms (5.5 hours);
an absent field or a violated bound yields false. -/
theorem isModelUnused_iff_window (model : ModelQuotaInfo) :
    isModelUnused model = true ↔
      ((∃ p, model.remainingPercentage = some p ∧ (99 : ℚ) ≤ p) ∧
       (∃ t, model.timeUntilResetMs = some t ∧
         (16200000 : ℚ) ≤ t ∧ t ≤ (19800000 : ℚ))) := by
  have hmin : RESET_TIME_MIN_MS = (16200000 : ℚ) := by
    norm_num [RESET_TIME_MIN_MS, RESET_TIME_MIN_HOURS]
  have hmax : RESET_TIME_MAX_MS = (19800000 : ℚ) := by
    norm_num [RESET_TIME_MAX_MS, RESET_TIME_MAX_HOURS]
  have hthr : FULL_QUOTA_THRESHOLD = (99 : ℚ) := rfl
  rcases model with ⟨mid, lbl, rp, ex, rt, tu⟩
  cases rp with
  | none => simp [isModelUnused]
  | some p =>
    cases tu with
    | none => simp [isModelUnused]
    | some t =>
      simp only [isModelUnused, hmin, hmax, hthr]
      split_ifs with h1 h2
      · simp only [Bool.false_eq_true, false_iff]
        rintro ⟨⟨p2, hp2, hle⟩, -⟩
        rw [Option.some_inj] at hp2
        subst hp2
        exact absurd hle (not_le.mpr h1)
      · simp only [Bool.false_eq_true, false_iff]
        rintro ⟨-, ⟨t2, ht2, hlo, hhi⟩⟩
        rw [Option.some_inj] at ht2
        subst ht2
        rcases h2 with h2 | h2
        · exact absurd hlo (not_le.mpr h2)
        · exact absurd hhi (not_le.mpr h2)
      · simp only [true_iff]
        push_neg at h2
        exact ⟨⟨p, rfl, not_lt.mp h1⟩, ⟨t, rfl, h2.1, h2.2⟩⟩

/-- Claim C7 counterexample: for every kind of persisted document, loading
a corrupted file does not raise: it resolves to the default value (null
config, empty history, empty reset state, empty mapping). -/
theorem corrupt_documents_load_defaults :
    loadWakeupConfig StoredDoc.corrupt = Except.ok none ∧
    loadTriggerHistory StoredDoc.corrupt = Except.ok [] ∧
    loadResetState StoredDoc.corrupt = Except.ok emptyResetState ∧
    loadModelMapping StoredDoc.corrupt = Except.ok emptyModelMapping :=
  ⟨rfl, rfl, rfl, rfl⟩

/-- Claim C7 (amended): loading a persisted state document never propagates
an exception — a corrupted document is silently replaced by the supplied
default — while a failed write does propagate. -/
theorem readJsonFile_total_writeJsonFile_throws :
    (∀ (α : Type) (doc : StoredDoc α) (defaultValue : α),
      (readJsonFile doc defaultValue).isOk = true) ∧
    (∀ (α : Type) (defaultValue : α),
      readJsonFile StoredDoc.corrupt defaultValue = Except.ok defaultValue) ∧
    (∀ (α : Type) (data : α),
      writeJsonFile false data = Except.error "Error writing file") := by
  refine ⟨fun α doc d => ?_, fun α d => rfl, fun α data => rfl⟩
  cases doc <;> rfl

/-- Claim C8: an explicit selection (including the empty one) resolves to
exactly its members that exist in the account directory with status valid
or expired, in input order; in particular the empty selection resolves to
the empty list. -/
theorem resolveAccounts_explicit_selection (m : AccountManager) (selected : List String) :
    resolveAccounts m (some []) = [] ∧
    resolveAccounts m (some selected) =
      selected.filter (fun email =>
        m.hasAccount email &&
          (decide (m.status email = AccountStatus.valid) ||
           decide (m.status email = AccountStatus.expired))) := by
  constructor
  · rfl
  · unfold resolveAccounts
    apply List.filter_congr
    intro email _
    by_cases hA : m.hasAccount email = true
    · cases hS : m.status email <;> simp [hA, hS]
    · simp [hA]

/-- Claim C9: with an empty model list, executeTrigger succeeds at once
with no results, no external call (in particular no credential acquisition
or refresh) and no history record. -/
theorem executeTrigger_empty_models (env : TriggerEnv) (options : TriggerOptions)
    (h : options.models = []) :
    executeTrigger env options = ({ success := true, results := [] }, [], []) := by
  rcases options with ⟨models, accountEmail, triggerType, triggerSource, customPrompt, maxTok⟩
  simp only at h
  subst h
  rfl

/-- Witness for claim C9 at a concrete option value. -/
theorem executeTrigger_empty_models_witness :
    executeTrigger okTriggerEnv
      { models := []
        accountEmail := "a@x.com"
        triggerType := TriggerType.manual
        triggerSource := TriggerSource.manual } =
      ({ success := true, results := [] }, [], []) :=
  executeTrigger_empty_models okTriggerEnv
    { models := []
      accountEmail := "a@x.com"
      triggerType := TriggerType.manual
      triggerSource := TriggerSource.manual } rfl

/-- Claim C10: updateResetState maps the written key to a fresh entry
carrying the given resetAt and the current time, and leaves the entry of
every other key of the persisted reset state unchanged. -/
theorem updateResetState_fresh_entry_and_frame (state : ResetState) (modelKey : String)
    (resetAt now : Int) (k : String) (h : k ≠ modelKey) :
    updateResetState modelKey resetAt now state modelKey =
      some { lastResetAt := resetAt, lastTriggeredTime := now } ∧
    updateResetState modelKey resetAt now state k = state k := by
  constructor
  · simp [updateResetState]
  · simp [updateResetState, h]

/-- Witness for claim C10 at concrete keys. -/
theorem updateResetState_fresh_entry_and_frame_witness :
    updateResetState "model-key-1" 5 7 emptyResetState "model-key-1" =
      some { lastResetAt := 5, lastTriggeredTime := 7 } ∧
    updateResetState "model-key-1" 5 7 emptyResetState "other-key" =
      emptyResetState "other-key" :=
  updateResetState_fresh_entry_and_frame emptyResetState "model-key-1" 5 7 "other-key"
    (by decide)

theorem addTriggerRecord_eq_take (record : TriggerRecord) (history : List TriggerRecord) :
    addTriggerRecord record history = (record :: history).take MAX_HISTORY_ENTRIES := by
  unfold addTriggerRecord
  simp only []
  split
  · rfl
  · next h => exact (List.take_of_length_le (by omega)).symm

theorem take_append_take {α : Type} (A l : List α) (n : Nat) :
    (A ++ l.take n).take n = (A ++ l).take n := by
  rw [List.take_append_eq_append_take, List.take_append_eq_append_take, List.take_take]
  congr 1
  exact congrArg (fun m => List.take m l) (Nat.min_eq_left (Nat.sub_le n A.length))

theorem appendTriggerRecords_eq_take (records : List TriggerRecord) :
    ∀ history : List TriggerRecord, history.length ≤ MAX_HISTORY_ENTRIES →
      appendTriggerRecords records history =
        (records.reverse ++ history).take MAX_HISTORY_ENTRIES := by
  induction records with
  | nil =>
    intro history h
    simpa [appendTriggerRecords] using (List.take_of_length_le h).symm
  | cons record rest ih =>
    intro history h
    have hstep : appendTriggerRecords (record :: rest) history =
        appendTriggerRecords rest (addTriggerRecord record history) := rfl
    rw [hstep, ih (addTriggerRecord record history)
      (by rw [addTriggerRecord_eq_take]; exact List.length_take_le _ _)]
    rw [addTriggerRecord_eq_take, take_append_take]
    simp [List.append_assoc]

/-- Claim C4: the trigger history is a bounded ring buffer: appending 105
records through addTriggerRecord onto an empty history leaves exactly 100
records, which are exactly the 100 most recently appended ones ordered
newest first (the reverse of the append order, truncated at 100). -/
theorem triggerHistory_ring_buffer (records : List TriggerRecord)
    (h : records.length = 105) :
    (appendTriggerRecords records []).length = 100 ∧
    appendTriggerRecords records [] = records.reverse.take 100 := by
  have heq : appendTriggerRecords records [] = records.reverse.take 100 := by
    rw [appendTriggerRecords_eq_take records [] (by simp [MAX_HISTORY_ENTRIES])]
    simp [MAX_HISTORY_ENTRIES]
  refine ⟨?_, heq⟩
  rw [heq, List.length_take, List.length_reverse, h]
  omega

/-- Witness for claim C4 on a concrete list of 105 records. -/
theorem triggerHistory_ring_buffer_witness :
    (appendTriggerRecords sampleHistoryInput []).length = 100 ∧
    appendTriggerRecords sampleHistoryInput [] = sampleHistoryInput.reverse.take 100 :=
  triggerHistory_ring_buffer sampleHistoryInput
    (by simp [sampleHistoryInput])

/-- Claim C2 (the code at the failing input): the model mapping assigns the
canonical reset key GEMINI_FLASH_CONSTANT to the model, and the reset-state
entry stored under that canonical key is well within the one-hour cooldown;
yet detectResetAndTrigger selects the model, reads nothing under the
canonical key, and writes the new entry under the raw model ID, leaving the
canonical-key entry untouched — the dedup key it uses is the raw model ID,
not getResetKey. -/
theorem detect_uses_raw_model_id_not_reset_key :
    getResetKey c2Mapping "gemini-2.0-flash-exp" = "GEMINI_FLASH_CONSTANT" ∧
    c2PriorState "GEMINI_FLASH_CONSTANT" =
      some { lastResetAt := 0, lastTriggeredTime := c2Now - 600000 } ∧
    c2Now - (c2Now - 600000) < DEFAULT_COOLDOWN_MS ∧
    (detectResetAndTrigger c2Env c2Snapshot).detection =
      { triggered := true, triggeredModels := ["gemini-2.0-flash-exp"] } ∧
    (detectResetAndTrigger c2Env c2Snapshot).finalResetState "gemini-2.0-flash-exp" =
      some { lastResetAt := 1700018000000, lastTriggeredTime := c2Now } ∧
    (detectResetAndTrigger c2Env c2Snapshot).finalResetState "GEMINI_FLASH_CONSTANT" =
      c2PriorState "GEMINI_FLASH_CONSTANT" := by
  refine ⟨rfl, rfl, by decide, by decide, by decide, by decide⟩

/-- Claim C3 counterexample: the model satisfies the unused predicate, its
dedup key per the model mapping is CLAUDE_POOL, and the reset-state entry
under that dedup key was last triggered ten minutes before now — yet
detectResetAndTrigger still places the model in the trigger batch, because
the cooldown is looked up under the raw model ID instead. -/
theorem detect_cooldown_ignores_mapped_key :
    isModelUnused c3Model = true ∧
    getResetKey c3Mapping "claude-sonnet-4-5" = "CLAUDE_POOL" ∧
    c3PriorState "CLAUDE_POOL" =
      some { lastResetAt := 0, lastTriggeredTime := c3Now - 600000 } ∧
    c3Now - (c3Now - 600000) < DEFAULT_COOLDOWN_MS ∧
    (detectResetAndTrigger c3Env c3Snapshot).detection.triggeredModels =
      ["claude-sonnet-4-5"] := by
  refine ⟨by decide, rfl, rfl, by decide, by decide⟩

theorem scanModels_skips_cooldown (loaded : ResetState) (now : Int)
    (models : List ModelQuotaInfo) (stored : ResetState) (mid : String)
    (prev : ModelResetState) (hstate : loaded mid = some prev)
    (hcool : now - prev.lastTriggeredTime < DEFAULT_COOLDOWN_MS) :
    mid ∉ (scanModels loaded now models stored).1 := by
  induction models generalizing stored with
  | nil => simp [scanModels]
  | cons model rest ih =>
    simp only [scanModels]
    by_cases hu : isModelUnused model = false
    · rw [if_pos hu]
      exact ih stored
    · rw [if_neg hu]
      by_cases hc : cooldownActive loaded now model.modelId = true
      · rw [if_pos hc]
        exact ih stored
      · rw [if_neg hc]
        have hne : model.modelId ≠ mid := by
          intro he
          apply hc
          unfold cooldownActive
          rw [he, hstate]
          simp only [decide_eq_true_eq]
          omega
        simp only [List.mem_cons, not_or]
        exact ⟨fun he => hne he.symm, ih _⟩

theorem detect_triggeredModels_cases (env : DetectEnv) (snapshot : QuotaSnapshot) :
    (detectResetAndTrigger env snapshot).detection.triggeredModels = [] ∨
    (detectResetAndTrigger env snapshot).detection.triggeredModels =
      (scanModels env.resetState env.now snapshot.models env.resetState).1 := by
  unfold detectResetAndTrigger
  split
  · exact Or.inl rfl
  · split
    · exact Or.inl rfl
    · split
      · exact Or.inl rfl
      · split
        next modelsToTrigger finalState heq =>
          split
          · exact Or.inl rfl
          · right
            simp only [noDetect]
            rw [heq]

/-- Claim C3 (amended): for every snapshot model satisfying the unused
predicate whose raw model ID (the key the detector actually consults) has a
reset-state entry with lastTriggeredTime less than the fixed one-hour
cooldown before the current time, detectResetAndTrigger does not include
that model in the trigger batch. -/
theorem detect_skips_models_in_cooldown (env : DetectEnv) (snapshot : QuotaSnapshot)
    (model : ModelQuotaInfo) (prev : ModelResetState)
    (hmem : model ∈ snapshot.models)
    (hunused : isModelUnused model = true)
    (hstate : env.resetState model.modelId = some prev)
    (hcool : env.now - prev.lastTriggeredTime < DEFAULT_COOLDOWN_MS) :
    model.modelId ∉ (detectResetAndTrigger env snapshot).detection.triggeredModels := by
  rcases detect_triggeredModels_cases env snapshot with h | h
  · rw [h]
    exact List.not_mem_nil _
  · rw [h]
    exact scanModels_skips_cooldown env.resetState env.now snapshot.models env.resetState
      model.modelId prev hstate hcool

/-- Witness for the amended claim C3: a model last triggered ten minutes
ago under its raw model ID is not re-triggered. -/
theorem detect_skips_models_in_cooldown_witness :
    c3RawKeyModel.modelId ∉
      (detectResetAndTrigger c3RawKeyEnv c3RawKeySnapshot).detection.triggeredModels :=
  detect_skips_models_in_cooldown c3RawKeyEnv c3RawKeySnapshot c3RawKeyModel
    { lastResetAt := 0, lastTriggeredTime := c3Now - 600000 }
    (by decide) (by decide) (by decide) (by decide)

/-- Claim C5: with model M1 in the trigger batch and the credential refresh
of the only account failing permanently, executeTrigger appends exactly one
failed history record for M1 carrying the detailed refresh error, issues no
generation request, returns success false — and detectResetAndTrigger still
returns triggered true with triggeredModels listing M1. -/
theorem detect_refresh_failure_still_triggered :
    (detectResetAndTrigger c5Env c5Snapshot).detection =
      { triggered := true, triggeredModels := ["M1"] } ∧
    (detectResetAndTrigger c5Env c5Snapshot).perAccount =
      [{ email := "a@x.com"
         result :=
           { success := false
             results := [{ modelId := "M1"
                           success := false
                           durationMs := 0
                           error := some "Refresh token has been revoked" }] }
         records := [{ timestamp := c5Now
                       success := false
                       triggerType := TriggerType.auto
                       triggerSource := TriggerSource.quota_reset
                       models := ["M1"]
                       accountEmail := "a@x.com"
                       durationMs := 0
                       prompt := "hi"
                       error := some "Refresh token has been revoked" }]
         events := [TriggerEvent.getTokenManager "a@x.com",
                    TriggerEvent.refreshTokens "a@x.com"] }] := by
  refine ⟨by decide, by decide⟩

theorem tryOnboardAux_calls_le (oracle : Nat → OnboardCallOutcome) :
    ∀ fuel attempt : Nat,
      countOnboardCalls (tryOnboardAux oracle fuel attempt).2 ≤ fuel := by
  intro fuel
  induction fuel with
  | zero =>
    intro attempt
    simp [tryOnboardAux, countOnboardCalls]
  | succ fuel ih =>
    intro attempt
    have hone : countOnboardCalls [OnboardEvent.call attempt] ≤ fuel + 1 := by
      simp [countOnboardCalls]
    have hcons : countOnboardCalls (OnboardEvent.call attempt ::
        OnboardEvent.sleep CLOUDCODE_onboardDelayMs ::
        (tryOnboardAux oracle fuel (attempt + 1)).2) ≤ fuel + 1 := by
      have hnext := ih (attempt + 1)
      have heq : countOnboardCalls (OnboardEvent.call attempt ::
          OnboardEvent.sleep CLOUDCODE_onboardDelayMs ::
          (tryOnboardAux oracle fuel (attempt + 1)).2) =
          countOnboardCalls (tryOnboardAux oracle fuel (attempt + 1)).2 + 1 := by
        simp [countOnboardCalls]
      omega
    simp only [tryOnboardAux]
    cases h : oracle attempt with
    | httpError status =>
      simp only []
      split
      · exact hone
      · split
        · exact hone
        · exact hcons
    | threw =>
      simp only []
      split
      · exact hone
      · exact hcons
    | ok done project =>
      simp only []
      split
      · exact hone
      · split
        · exact hone
        · exact hcons

theorem tryOnboardAux_sleep_delay (oracle : Nat → OnboardCallOutcome) :
    ∀ fuel attempt n : Nat,
      OnboardEvent.sleep n ∈ (tryOnboardAux oracle fuel attempt).2 →
      n = CLOUDCODE_onboardDelayMs := by
  intro fuel
  induction fuel with
  | zero =>
    intro attempt n hn
    simp [tryOnboardAux] at hn
  | succ fuel ih =>
    intro attempt n
    have hone : OnboardEvent.sleep n ∈ [OnboardEvent.call attempt] →
        n = CLOUDCODE_onboardDelayMs := by
      intro hn
      simp at hn
    have hcons : OnboardEvent.sleep n ∈ (OnboardEvent.call attempt ::
        OnboardEvent.sleep CLOUDCODE_onboardDelayMs ::
        (tryOnboardAux oracle fuel (attempt + 1)).2) →
        n = CLOUDCODE_onboardDelayMs := by
      intro hn
      simp only [List.mem_cons] at hn
      rcases hn with h | h | h
      · exact absurd h (by simp)
      · exact (OnboardEvent.sleep.injEq n CLOUDCODE_onboardDelayMs).mp h
      · exact ih (attempt + 1) n h
    simp only [tryOnboardAux]
    cases h : oracle attempt with
    | httpError status =>
      simp only []
      split
      · exact hone
      · split
        · exact hone
        · exact hcons
    | threw =>
      simp only []
      split
      · exact hone
      · exact hcons
    | ok done project =>
      simp only []
      split
      · exact hone
      · split
        · exact hone
        · exact hcons

/-- Claim C6 counterexample: with one allowed tier that is not flagged
default and a paid tier available from the load response, the claimed
priority would pick the paid tier, but pickOnboardTier picks the first
allowed tier; resolveProjectId accordingly onboards with the allowed tier
and reports it, not the paid tier. -/
theorem pickOnboardTier_prefers_allowed_over_paid :
    pickOnboardTier (some [{ id := some "free-tier", isDefault := some false }])
      (some "paid-tier") = some "free-tier" ∧
    (resolveProjectId (LoadCallOutcome.ok c6LoadResponse) c6Oracle).1.tierId =
      some "free-tier" ∧
    some "free-tier" ≠ (some "paid-tier" : Option String) := by
  refine ⟨by decide, by decide, by decide⟩

/-- Claim C6 (amended): with no allowed tiers the tier from the load
response is used; with allowed tiers present the selection priority is the
first default-flagged tier with a non-empty id, else the first tier with a
non-empty id, else the fixed tier LEGACY (the load-derived tier is not
consulted); and the onboarding endpoint is polled at most 5 times with a
2000 ms delay between consecutive attempts. -/
theorem pickOnboardTier_priority_and_onboard_polling :
    (∀ tierIdFromLoad, pickOnboardTier none tierIdFromLoad = tierIdFromLoad) ∧
    (∀ tierIdFromLoad, pickOnboardTier (some []) tierIdFromLoad = tierIdFromLoad) ∧
    (∀ (tiers : List Tier) (tierIdFromLoad : Option String) (d : Tier),
      tiers.find? (fun t => (t.isDefault == some true) && tierHasId t) = some d →
      pickOnboardTier (some tiers) tierIdFromLoad = d.id) ∧
    (∀ (tiers : List Tier) (tierIdFromLoad : Option String) (d : Tier),
      tiers.find? (fun t => (t.isDefault == some true) && tierHasId t) = none →
      tiers.find? tierHasId = some d →
      pickOnboardTier (some tiers) tierIdFromLoad = d.id) ∧
    (∀ (tiers : List Tier) (tierIdFromLoad : Option String), tiers ≠ [] →
      tiers.find? tierHasId = none →
      pickOnboardTier (some tiers) tierIdFromLoad = some "LEGACY") ∧
    (∀ oracle : Nat → OnboardCallOutcome,
      countOnboardCalls (tryOnboardUser oracle).2 ≤ CLOUDCODE_onboardAttempts ∧
      ∀ n, OnboardEvent.sleep n ∈ (tryOnboardUser oracle).2 →
        n = CLOUDCODE_onboardDelayMs) := by
  refine ⟨fun t => rfl, fun t => rfl, ?_, ?_, ?_, ?_⟩
  · intro tiers t d hfind
    cases tiers with
    | nil => simp at hfind
    | cons a rest =>
      simp [pickOnboardTier, hfind]
  · intro tiers t d hdef hfind
    cases tiers with
    | nil => simp at hfind
    | cons a rest =>
      simp [pickOnboardTier, hdef, hfind]
  · intro tiers t hne hfind
    have hdef : tiers.find? (fun t => (t.isDefault == some true) && tierHasId t) = none := by
      rw [List.find?_eq_none] at hfind ⊢
      intro x hx
      simp only [Bool.and_eq_true, not_and]
      intro _
      exact hfind x hx
    cases tiers with
    | nil => exact absurd rfl hne
    | cons a rest =>
      simp [pickOnboardTier, hdef, hfind]
  · intro oracle
    exact ⟨tryOnboardAux_calls_le oracle CLOUDCODE_onboardAttempts 1,
      fun n => tryOnboardAux_sleep_delay oracle CLOUDCODE_onboardAttempts 1 n⟩

/-- Witness for the amended claim C6: a default-flagged tier wins even when
a paid tier is available from the load response. -/
theorem pickOnboardTier_priority_witness :
    pickOnboardTier
      (some [{ id := some "standard-tier", isDefault := some true },
             { id := some "other-tier", isDefault := some false }])
      (some "paid-tier") = some "standard-tier" :=
  pickOnboardTier_priority_and_onboard_polling.2.2.1
    [{ id := some "standard-tier", isDefault := some true },
     { id := some "other-tier", isDefault := some false }]
    (some "paid-tier")
    { id := some "standard-tier", isDefault := some true }
    (by decide)
